import Mathlib

/-!
Verification of the lunch-roulette shared-state logic.

The development shallowly embeds the state store (`stateStore.ts` flat-file
variant and the hosted-database variant bundled with `route.ts`), the PUT
merge of `route.ts`, and the client-side selection/activation logic of the
page component.  JavaScript numbers are modelled as rationals (every value
reachable here comes from `JSON.parse`, whose range excludes `NaN` and the
infinities); `NaN` arises only through `Number()` coercion and is modelled
as `none`.
-/

namespace LunchStudio

/-- A JSON-ish JavaScript value, as produced by `JSON.parse` plus the
`undefined` value produced by missing-property access. -/
inductive JsValue where
  | vUndefined : JsValue
  | vNull : JsValue
  | vBool (b : Bool) : JsValue
  | vNum (q : ℚ) : JsValue
  | vStr (s : String) : JsValue
  | vArr (elems : List JsValue) : JsValue
  | vObj (fields : List (String × JsValue)) : JsValue
deriving Repr

/-- Property access `v?.k` (and plain `v.k` on objects): returns the field
value on objects, `undefined` on anything else. -/
def getField (v : JsValue) (k : String) : JsValue :=
  match v with
  | .vObj fields =>
      match fields.lookup k with
      | some w => w
      | none => .vUndefined
  | _ => .vUndefined

/-- JavaScript truthiness, `Boolean(v)` / use of `v` in a condition. -/
def truthy : JsValue → Bool
  | .vUndefined => false
  | .vNull => false
  | .vBool b => b
  | .vNum q => decide (q ≠ 0)
  | .vStr s => decide (s ≠ "")
  | .vArr _ => true
  | .vObj _ => true

/-- The test `typeof v === "string"`. -/
def isStringV : JsValue → Bool
  | .vStr _ => true
  | _ => false

/-- The test `typeof v === "number"`. -/
def isNumberV : JsValue → Bool
  | .vNum _ => true
  | _ => false

/-- The test `Array.isArray(v)`. -/
def isArrayV : JsValue → Bool
  | .vArr _ => true
  | _ => false

/-- Models the JS `Number()` coercion; `none` stands for `NaN`.  String
parsing is modelled for plain decimal naturals (the empty string coerces
to `0`, any other unparseable string to `NaN`); object-to-primitive
coercion of arrays and objects is abstracted to `NaN`, a path no stored
or requested document exercises. -/
def toNumber : JsValue → Option ℚ
  | .vUndefined => none
  | .vNull => some 0
  | .vBool b => some (if b then 1 else 0)
  | .vNum q => some q
  | .vStr s => if s = "" then some 0 else (s.toNat?).map (fun n => (n : ℚ))
  | .vArr _ => none
  | .vObj _ => none

/-- `String(v)` applied to a value already known to be a string. -/
def asString : JsValue → String
  | .vStr s => s
  | _ => ""

/-- `typeof v === "number" ? v : undefined`, as used for `lastSelectedDate`. -/
def asNumberOpt : JsValue → Option ℚ
  | .vNum q => some q
  | _ => none

/-- A restaurant record, as in `stateStore.ts` (`lastSelectedDate` is an
optional millisecond timestamp). -/
structure Restaurant where
  id : String
  name : String
  blacklisted : Bool
  lastSelectedDate : Option ℚ
deriving Repr, DecidableEq

/-- The single shared document, as in `stateStore.ts`. -/
structure ServerState where
  restaurants : List Restaurant
  cooldownWeeks : ℚ
  activatedBy : Option String
deriving Repr, DecidableEq

/-- `normalizeState` of `stateStore.ts` (flat-file store): non-array
`restaurants` becomes `[]`, elements without a string `id` and `name` are
dropped, `blacklisted` is coerced by truthiness, `lastSelectedDate` is kept
only when numeric, `cooldownWeeks` is kept only when a finite positive
number (else `2`), `activatedBy` only when a string. -/
def normalizeState (input : JsValue) : ServerState :=
  let restaurants : List Restaurant :=
    match getField input "restaurants" with
    | .vArr elems =>
        (elems.filter fun r =>
            truthy r && isStringV (getField r "id") && isStringV (getField r "name")).map
          fun r =>
            { id := asString (getField r "id")
              name := asString (getField r "name")
              blacklisted := truthy (getField r "blacklisted")
              lastSelectedDate := asNumberOpt (getField r "lastSelectedDate") }
    | _ => []
  let cooldownWeeks : ℚ :=
    match toNumber (getField input "cooldownWeeks") with
    | some q => if 0 < q then q else 2
    | none => 2
  let activatedBy : Option String :=
    match getField input "activatedBy" with
    | .vStr s => some s
    | _ => none
  { restaurants := restaurants, cooldownWeeks := cooldownWeeks, activatedBy := activatedBy }

/-- `normalizeState` of the hosted-database store variant (the copy bundled
after `route.ts`); textually the same function as the flat-file one. -/
def normalizeStateDb (input : JsValue) : ServerState :=
  let restaurants : List Restaurant :=
    match getField input "restaurants" with
    | .vArr elems =>
        (elems.filter fun r =>
            truthy r && isStringV (getField r "id") && isStringV (getField r "name")).map
          fun r =>
            { id := asString (getField r "id")
              name := asString (getField r "name")
              blacklisted := truthy (getField r "blacklisted")
              lastSelectedDate := asNumberOpt (getField r "lastSelectedDate") }
    | _ => []
  let cooldownWeeks : ℚ :=
    match toNumber (getField input "cooldownWeeks") with
    | some q => if 0 < q then q else 2
    | none => 2
  let activatedBy : Option String :=
    match getField input "activatedBy" with
    | .vStr s => some s
    | _ => none
  { restaurants := restaurants, cooldownWeeks := cooldownWeeks, activatedBy := activatedBy }

/-- JSON serialization of one normalized restaurant (`JSON.stringify`
drops a key whose value is `undefined`). -/
def restaurantToJs (r : Restaurant) : JsValue :=
  .vObj ([("id", .vStr r.id), ("name", .vStr r.name), ("blacklisted", .vBool r.blacklisted)] ++
    match r.lastSelectedDate with
    | some q => [("lastSelectedDate", JsValue.vNum q)]
    | none => [])

/-- JSON serialization of a normalized document, as written by
`writeServerState` and re-read by `JSON.parse`. -/
def serverStateToJs (s : ServerState) : JsValue :=
  .vObj ([("restaurants", .vArr (s.restaurants.map restaurantToJs)),
          ("cooldownWeeks", .vNum s.cooldownWeeks)] ++
    match s.activatedBy with
    | some a => [("activatedBy", JsValue.vStr a)]
    | none => [])

/-- The default document returned when no file exists yet. -/
def defaultServerState : ServerState :=
  { restaurants := [], cooldownWeeks := 2, activatedBy := none }

/-- Outcome of the flat-file read attempt (`fs.readFile` followed by
`JSON.parse`): the file may be missing (`ENOENT`), a path component may
not be a directory (`ENOTDIR`), any other I/O error may occur, and an
existing file may hold unparseable text or a parsed value. -/
inductive FsReadOutcome where
  | missingFile : FsReadOutcome
  | missingDir : FsReadOutcome
  | ioError : FsReadOutcome
  | unparseable : FsReadOutcome
  | parsed (v : JsValue) : FsReadOutcome

/-- Error surfaced by the flat-file store when the read does not fall back
to the default document. -/
inductive StoreError where
  | parseError : StoreError
  | ioError : StoreError
deriving Repr, DecidableEq

/-- `readServerState` of `stateStore.ts`: only `ENOENT` and `ENOTDIR` are
turned into the default document; every other error (a `JSON.parse`
failure included, since its `SyntaxError` carries no `code`) is rethrown. -/
def readServerStateFile : FsReadOutcome → Except StoreError ServerState
  | .missingFile => .ok defaultServerState
  | .missingDir => .ok defaultServerState
  | .ioError => .error .ioError
  | .unparseable => .error .parseError
  | .parsed v => .ok (normalizeState v)

/-- Outcome of the hosted-database read (`supabase...single()` followed by
a truthiness test on `data?.state` and `JSON.parse`). -/
inductive DbReadOutcome where
  | failure : DbReadOutcome
  | noData : DbReadOutcome
  | unparseable : DbReadOutcome
  | parsed (v : JsValue) : DbReadOutcome

/-- `readServerState` of the hosted-database variant: the whole body is
wrapped in a catch-all, so every failure (query error, missing row, falsy
or unparseable stored text) yields the default document. -/
def readServerStateDb : DbReadOutcome → ServerState
  | .failure => defaultServerState
  | .noData => defaultServerState
  | .unparseable => defaultServerState
  | .parsed v => normalizeStateDb v

/-- `writeServerState`: the document persisted to the store is the
normalization of the written value (the file holds its JSON text). -/
def writeServerState (state : JsValue) : ServerState :=
  normalizeState state

/-- The merge performed by `PUT` of `route.ts`: each of the three fields is
taken from the request body when it has the expected shape there
(`Array.isArray` / `typeof "number"` / `typeof "string"`) and from the
current document otherwise.  The current document's values re-enter as
their JSON serialization. -/
def putNext (body : JsValue) (current : ServerState) : JsValue :=
  .vObj
    [("restaurants",
      if isArrayV (getField body "restaurants") then getField body "restaurants"
      else .vArr (current.restaurants.map restaurantToJs)),
     ("cooldownWeeks",
      if isNumberV (getField body "cooldownWeeks") then getField body "cooldownWeeks"
      else .vNum current.cooldownWeeks),
     ("activatedBy",
      if isStringV (getField body "activatedBy") then getField body "activatedBy"
      else match current.activatedBy with
           | some a => JsValue.vStr a
           | none => JsValue.vUndefined)]

/-- The document returned in the `PUT` response: `Response.json(next)`
serializes the merged document as built, before any normalization. -/
def putResponse (body : JsValue) (current : ServerState) : JsValue :=
  putNext body current

/-- The document persisted by `PUT`: `writeServerState(next)` normalizes
the merged document before writing it. -/
def putPersisted (body : JsValue) (current : ServerState) : ServerState :=
  writeServerState (putNext body current)

/-- One week's worth of cooldown, `WEEKS_TO_MS` of the page component. -/
def WEEKS_TO_MS (weeks : ℚ) : ℚ :=
  weeks * 7 * 24 * 60 * 60 * 1000

/-- The static shared secret of the page component. -/
def SECRET_CODE : String := "LizRulz!"

/-- `availableRestaurants` of the page component:
`restaurants.filter(r => !r.blacklisted && (!r.lastSelectedDate ||
(now - r.lastSelectedDate > cooldownPeriodInMs)))`.  JS truthiness makes
`!r.lastSelectedDate` true both when the stamp is absent and when it is
the number `0`. -/
def availableRestaurants (restaurants : List Restaurant)
    (cooldownPeriodInMs : ℚ) (now : ℚ) : List Restaurant :=
  restaurants.filter fun r =>
    !r.blacklisted &&
      (match r.lastSelectedDate with
       | none => true
       | some t => decide (t = 0) || decide (now - t > cooldownPeriodInMs))

/-- `isRestaurantOnCooldown` of the page component: a restaurant with a
falsy stamp is never on cooldown, otherwise the test is
`now - lastSelectedDate < cooldownPeriodInMs` (strict `<`). -/
def isRestaurantOnCooldown (cooldownPeriodInMs : ℚ) (now : ℚ)
    (r : Restaurant) : Bool :=
  match r.lastSelectedDate with
  | none => false
  | some t => !(decide (t = 0)) && decide (now - t < cooldownPeriodInMs)

/-- `handleActivation` of the page component, restricted to the shared
document: a correct attempt persists the caller's session id as
`activatedBy` (restaurants and cooldown are passed through unchanged by
`persist`), a wrong attempt only shows a toast and changes nothing.  The
returned boolean is the success report. -/
def handleActivation (attempt : String) (sessionId : String)
    (st : ServerState) : Bool × ServerState :=
  if attempt = SECRET_CODE then
    (true, { st with activatedBy := some sessionId })
  else
    (false, st)

/-- Outcome of a suggestion request. -/
inductive SuggestOutcome where
  | notActivated : SuggestOutcome
  | insufficientOptions : SuggestOutcome
  | indexOutOfRange : SuggestOutcome
  | picked (name : String) : SuggestOutcome
deriving Repr, DecidableEq

/-- `handleGetSuggestion` of the page component, restricted to the shared
document.  `rand` is the value drawn by `Math.random()`; the chosen index
is `Math.floor(rand * availableRestaurants.length)`.  An out-of-range
index (impossible for `rand` in `[0,1)`) would make the JS code fault on
`randomRestaurant.id`; that is modelled by the `indexOutOfRange` outcome.
On success every restaurant whose id equals the chosen one's id is
restamped with `lastSelectedDate = now` and the new list is persisted. -/
def handleGetSuggestion (isActivated : Bool) (st : ServerState)
    (now : ℚ) (rand : ℚ) : SuggestOutcome × ServerState :=
  if !isActivated then (.notActivated, st)
  else
    let avail := availableRestaurants st.restaurants (WEEKS_TO_MS st.cooldownWeeks) now
    if avail.length < 2 then (.insufficientOptions, st)
    else
      let randomIndex : ℤ := Int.floor (rand * (avail.length : ℚ))
      match (if 0 ≤ randomIndex then avail[randomIndex.toNat]? else none) with
      | none => (.indexOutOfRange, st)
      | some chosen =>
          (.picked chosen.name,
           { st with
               restaurants := st.restaurants.map fun r =>
                 if r.id = chosen.id then { r with lastSelectedDate := some now } else r })

/-- The four field reads that normalization performs on a serialized
restaurant recover the original record's components. -/
lemma restaurantToJs_fields (r : Restaurant) :
    getField (restaurantToJs r) "id" = .vStr r.id ∧
    getField (restaurantToJs r) "name" = .vStr r.name ∧
    getField (restaurantToJs r) "blacklisted" = .vBool r.blacklisted ∧
    asNumberOpt (getField (restaurantToJs r) "lastSelectedDate") = r.lastSelectedDate := by
  rcases r with ⟨id, name, bl, last⟩
  cases last <;> exact ⟨rfl, rfl, rfl, rfl⟩

/-- Serialized restaurants pass normalization's filter and are mapped back
to themselves. -/
lemma norm_restaurants_roundtrip (rs : List Restaurant) :
    ((rs.map restaurantToJs).filter fun r =>
        truthy r && isStringV (getField r "id") && isStringV (getField r "name")).map
      (fun r =>
        { id := asString (getField r "id")
          name := asString (getField r "name")
          blacklisted := truthy (getField r "blacklisted")
          lastSelectedDate := asNumberOpt (getField r "lastSelectedDate") : Restaurant }) = rs := by
  induction rs with
  | nil => rfl
  | cons r rs ih =>
      obtain ⟨h1, h2, h3, h4⟩ := restaurantToJs_fields r
      rcases r with ⟨id, name, bl, last⟩
      simp only [List.map_cons, List.filter_cons]
      have ht : truthy (restaurantToJs ⟨id, name, bl, last⟩) = true := by
        cases last <;> rfl
      simp only [ht, h1, h2, h3, h4, isStringV, Bool.and_true, Bool.true_and, if_true]
      simp only [List.map_cons, ih, List.cons.injEq, and_true, Restaurant.mk.injEq]
      rw [h1, h2, h3]
      exact And.intro (And.intro rfl (And.intro rfl (And.intro rfl h4))) ih

/-- Every normalized document has a positive cooldown. -/
lemma normalizeState_cooldown_pos (x : JsValue) : 0 < (normalizeState x).cooldownWeeks := by
  simp only [normalizeState]
  cases h : toNumber (getField x "cooldownWeeks") with
  | none => simp [h]
  | some q =>
      simp only [h]
      split <;> norm_num
      assumption

/-- Normalizing the JSON serialization of a document with a positive
cooldown recovers the document exactly. -/
lemma normalizeState_serverStateToJs (s : ServerState) (hcw : 0 < s.cooldownWeeks) :
    normalizeState (serverStateToJs s) = s := by
  rcases s with ⟨rs, cw, ab⟩
  have hre : getField (serverStateToJs ⟨rs, cw, ab⟩) "restaurants" =
      .vArr (rs.map restaurantToJs) := by
    cases ab <;> rfl
  have hcd : getField (serverStateToJs ⟨rs, cw, ab⟩) "cooldownWeeks" = .vNum cw := by
    cases ab <;> rfl
  have hab : getField (serverStateToJs ⟨rs, cw, ab⟩) "activatedBy" =
      (match ab with | some a => JsValue.vStr a | none => JsValue.vUndefined) := by
    cases ab <;> rfl
  simp only [ServerState.cooldownWeeks] at hcw
  cases ab <;>
    simp [normalizeState, hre, hcd, hab, toNumber, norm_restaurants_roundtrip, hcw]

/-- Normalization is idempotent through the persisted JSON document. -/
lemma normalizeState_idem (x : JsValue) :
    normalizeState (serverStateToJs (normalizeState x)) = normalizeState x :=
  normalizeState_serverStateToJs _ (normalizeState_cooldown_pos x)

end LunchStudio
namespace LunchStudio

/-- The two copies of the normalization function compute the same result;
shared helper for the claims that touch both store variants. -/
lemma normalizeStateDb_eq_normalizeState (x : JsValue) :
    normalizeStateDb x = normalizeState x := rfl

/-- C10: for every raw input document, the flat-file store's
`normalizeState` and the hosted-database store's `normalizeState` return
equal `ServerState` values (same restaurants in the same order, same
cooldown, same activator). -/
theorem C10_normalize_variants_agree (x : JsValue) :
    normalizeStateDb x = normalizeState x :=
  normalizeStateDb_eq_normalizeState x

/-- C9: state normalization is idempotent — normalizing the persisted form
of an already-normalized document returns it unchanged. -/
theorem C9_normalize_idempotent (x : JsValue) :
    normalizeState (serverStateToJs (normalizeState x)) = normalizeState x :=
  normalizeState_idem x

/-- C7: activation with the exact static secret sets `activatedBy` to the
caller's session id and changes nothing else; any other attempt reports
failure and leaves the whole document unchanged. -/
theorem C7_activation_gate (attempt sessionId : String) (st : ServerState) :
    (attempt = SECRET_CODE →
      handleActivation attempt sessionId st =
        (true, { st with activatedBy := some sessionId })) ∧
    (attempt ≠ SECRET_CODE →
      handleActivation attempt sessionId st = (false, st)) := by
  constructor
  · intro h
    simp [handleActivation, h]
  · intro h
    simp [handleActivation, h]

/-- Witness for C7 at a concrete correct and a concrete wrong attempt. -/
theorem C7_activation_gate_witness :
    handleActivation "LizRulz!" "sess-1" ⟨[], 2, none⟩ =
      (true, ⟨[], 2, some "sess-1"⟩) ∧
    handleActivation "wrong" "sess-1" ⟨[], 2, none⟩ = (false, ⟨[], 2, none⟩) :=
  ⟨(C7_activation_gate "LizRulz!" "sess-1" ⟨[], 2, none⟩).1 rfl,
   (C7_activation_gate "wrong" "sess-1" ⟨[], 2, none⟩).2 (by decide)⟩

/-- C6: with fewer than two eligible restaurants a suggestion request
fails with the insufficient-options rejection and returns the document
unchanged (every restaurant, the cooldown and the activator included). -/
theorem C6_insufficient_options (st : ServerState) (now rand : ℚ)
    (h : (availableRestaurants st.restaurants (WEEKS_TO_MS st.cooldownWeeks) now).length < 2) :
    handleGetSuggestion true st now rand = (.insufficientOptions, st) := by
  simp [handleGetSuggestion, h]

/-- Witness for C6: one available restaurant, the request fails and the
document is returned unchanged. -/
theorem C6_insufficient_options_witness :
    handleGetSuggestion true ⟨[⟨"a", "A", false, none⟩], 2, none⟩ 0 (1/2) =
      (.insufficientOptions, ⟨[⟨"a", "A", false, none⟩], 2, none⟩) :=
  C6_insufficient_options ⟨[⟨"a", "A", false, none⟩], 2, none⟩ 0 (1/2) (by decide)

/-- C4 counterexample: a stored document that fails to parse makes the
flat-file read fail with an error instead of falling back to the default
document. -/
theorem C4_counterexample :
    readServerStateFile FsReadOutcome.unparseable = Except.error StoreError.parseError ∧
    readServerStateFile FsReadOutcome.unparseable ≠ Except.ok defaultServerState :=
  ⟨rfl, fun h => Except.noConfusion h⟩

/-- C4 amended: the flat-file read falls back to the default document only
when the file or its directory is missing and propagates every other
failure, while the hosted-database read falls back to the default document
on every failure. -/
theorem C4_amended :
    readServerStateFile FsReadOutcome.missingFile = Except.ok defaultServerState ∧
    readServerStateFile FsReadOutcome.missingDir = Except.ok defaultServerState ∧
    (∀ v, readServerStateFile (FsReadOutcome.parsed v) = Except.ok (normalizeState v)) ∧
    readServerStateFile FsReadOutcome.unparseable = Except.error StoreError.parseError ∧
    readServerStateFile FsReadOutcome.ioError = Except.error StoreError.ioError ∧
    readServerStateDb DbReadOutcome.failure = defaultServerState ∧
    readServerStateDb DbReadOutcome.noData = defaultServerState ∧
    readServerStateDb DbReadOutcome.unparseable = defaultServerState ∧
    (∀ v, readServerStateDb (DbReadOutcome.parsed v) = normalizeStateDb v) :=
  ⟨rfl, rfl, fun _ => rfl, rfl, rfl, rfl, rfl, rfl, fun _ => rfl⟩

/-- Raw document with two restaurants sharing the id `"a"`. -/
def dupIdInput : JsValue :=
  .vObj [("restaurants", .vArr
    [.vObj [("id", .vStr "a"), ("name", .vStr "A")],
     .vObj [("id", .vStr "a"), ("name", .vStr "B")]])]

/-- C5 counterexample: normalization does not deduplicate ids — a raw
document with two restaurants sharing an id normalizes to a document whose
restaurant ids are not pairwise distinct. -/
theorem C5_counterexample :
    ¬ ((normalizeState dupIdInput).restaurants.map Restaurant.id).Nodup := by
  decide

/-- C5 amended: every document produced by a state read or persisted by a
state write has a positive (finite) cooldown, but id-uniqueness is not
enforced by normalization. -/
theorem C5_amended :
    (∀ x, 0 < (normalizeState x).cooldownWeeks) ∧
    (∀ o s, readServerStateFile o = Except.ok s → 0 < s.cooldownWeeks) ∧
    (∀ o, 0 < (readServerStateDb o).cooldownWeeks) := by
  refine ⟨normalizeState_cooldown_pos, ?_, ?_⟩
  · intro o s h
    cases o with
    | missingFile =>
        cases h
        norm_num [defaultServerState]
    | missingDir =>
        cases h
        norm_num [defaultServerState]
    | ioError => cases h
    | unparseable => cases h
    | parsed v =>
        cases h
        exact normalizeState_cooldown_pos v
  · intro o
    cases o with
    | failure => norm_num [readServerStateDb, defaultServerState]
    | noData => norm_num [readServerStateDb, defaultServerState]
    | unparseable => norm_num [readServerStateDb, defaultServerState]
    | parsed v =>
        rw [readServerStateDb, normalizeStateDb_eq_normalizeState]
        exact normalizeState_cooldown_pos v

/-- Witness for C5 amended at concrete inputs. -/
theorem C5_amended_witness :
    0 < (normalizeState JsValue.vNull).cooldownWeeks ∧
    0 < defaultServerState.cooldownWeeks ∧
    0 < (readServerStateDb DbReadOutcome.failure).cooldownWeeks :=
  ⟨C5_amended.1 JsValue.vNull,
   C5_amended.2.1 FsReadOutcome.missingFile defaultServerState rfl,
   C5_amended.2.2 DbReadOutcome.failure⟩

end LunchStudio
namespace LunchStudio

/-- Request body used for the C3 counterexample. -/
def c3Body : JsValue := .vObj [("cooldownWeeks", .vNum (-5))]

/-- C3 counterexample: `PUT {cooldownWeeks: -5}` against the default
document responds with `cooldownWeeks = -5` while persisting the
normalized value `2`, so the response differs from the persisted
document. -/
theorem C3_counterexample :
    getField (putResponse c3Body defaultServerState) "cooldownWeeks" = .vNum (-5) ∧
    (putPersisted c3Body defaultServerState).cooldownWeeks = 2 ∧
    putResponse c3Body defaultServerState ≠
      serverStateToJs (putPersisted c3Body defaultServerState) := by
  refine ⟨rfl, by decide, fun h => ?_⟩
  have h2 : getField (putResponse c3Body defaultServerState) "cooldownWeeks" =
      getField (serverStateToJs (putPersisted c3Body defaultServerState)) "cooldownWeeks" := by
    rw [h]
  have h3 : JsValue.vNum (-5 : ℚ) = JsValue.vNum 2 := h2
  injection h3 with h4
  norm_num at h4

/-- C3 amended: the `PUT` response is the merged document before
normalization and the persisted document is its normalization, so a
subsequent read returns the persisted normalized document, which can
differ from the response. -/
theorem C3_amended (body : JsValue) (current : ServerState) :
    putPersisted body current = normalizeState (putResponse body current) ∧
    readServerStateFile (.parsed (serverStateToJs (putPersisted body current))) =
      Except.ok (putPersisted body current) := by
  refine ⟨rfl, ?_⟩
  show Except.ok (normalizeState (serverStateToJs (normalizeState (putNext body current)))) = _
  rw [normalizeState_idem]
  rfl

end LunchStudio
namespace LunchStudio

/-- When the request body carries no array under `restaurants`, the
persisted merged document keeps the current restaurants exactly. -/
lemma putPersisted_restaurants_fallback (body : JsValue) (current : ServerState)
    (h : isArrayV (getField body "restaurants") = false) :
    (putPersisted body current).restaurants = current.restaurants := by
  have hre : getField (putNext body current) "restaurants" =
      (if isArrayV (getField body "restaurants") then getField body "restaurants"
       else JsValue.vArr (current.restaurants.map restaurantToJs)) := rfl
  rw [h] at hre
  simp only [Bool.false_eq_true, if_false] at hre
  show (normalizeState (putNext body current)).restaurants = _
  simp only [normalizeState, hre]
  exact norm_restaurants_roundtrip current.restaurants

/-- When the request body carries no number under `cooldownWeeks`, the
persisted merged document keeps the current (positive) cooldown exactly. -/
lemma putPersisted_cooldown_fallback (body : JsValue) (current : ServerState)
    (hcw : 0 < current.cooldownWeeks)
    (h : isNumberV (getField body "cooldownWeeks") = false) :
    (putPersisted body current).cooldownWeeks = current.cooldownWeeks := by
  have hcd : getField (putNext body current) "cooldownWeeks" =
      (if isNumberV (getField body "cooldownWeeks") then getField body "cooldownWeeks"
       else JsValue.vNum current.cooldownWeeks) := rfl
  rw [h] at hcd
  simp only [Bool.false_eq_true, if_false] at hcd
  show (normalizeState (putNext body current)).cooldownWeeks = _
  simp only [normalizeState, hcd, toNumber]
  rw [if_pos hcw]

/-- When the request body carries no string under `activatedBy`, the
persisted merged document keeps the current activator exactly. -/
lemma putPersisted_activatedBy_fallback (body : JsValue) (current : ServerState)
    (h : isStringV (getField body "activatedBy") = false) :
    (putPersisted body current).activatedBy = current.activatedBy := by
  have hab : getField (putNext body current) "activatedBy" =
      (if isStringV (getField body "activatedBy") then getField body "activatedBy"
       else match current.activatedBy with
            | some a => JsValue.vStr a
            | none => JsValue.vUndefined) := rfl
  rw [h] at hab
  simp only [Bool.false_eq_true, if_false] at hab
  show (normalizeState (putNext body current)).activatedBy = _
  cases hcur : current.activatedBy with
  | none =>
      rw [hcur] at hab
      simp only [normalizeState, hab]
  | some a =>
      rw [hcur] at hab
      simp only [normalizeState, hab]

/-- C2: each of the three fields of the persisted merged document falls
back to the current document's value when it is absent or malformed in
the request body; in particular `PUT {cooldownWeeks: 3}` keeps the
restaurants and activator untouched while setting the cooldown to `3`. -/
theorem C2_put_field_fallback (body : JsValue) (current : ServerState)
    (hcw : 0 < current.cooldownWeeks) :
    (isArrayV (getField body "restaurants") = false →
      (putPersisted body current).restaurants = current.restaurants) ∧
    (isNumberV (getField body "cooldownWeeks") = false →
      (putPersisted body current).cooldownWeeks = current.cooldownWeeks) ∧
    (isStringV (getField body "activatedBy") = false →
      (putPersisted body current).activatedBy = current.activatedBy) ∧
    (putPersisted (.vObj [("cooldownWeeks", .vNum 3)]) current).restaurants
      = current.restaurants ∧
    (putPersisted (.vObj [("cooldownWeeks", .vNum 3)]) current).cooldownWeeks = 3 ∧
    (putPersisted (.vObj [("cooldownWeeks", .vNum 3)]) current).activatedBy
      = current.activatedBy := by
  refine ⟨putPersisted_restaurants_fallback body current,
          putPersisted_cooldown_fallback body current hcw,
          putPersisted_activatedBy_fallback body current,
          putPersisted_restaurants_fallback _ current rfl,
          ?_,
          putPersisted_activatedBy_fallback _ current rfl⟩
  have hcd : getField (putNext (.vObj [("cooldownWeeks", .vNum 3)]) current) "cooldownWeeks" =
      JsValue.vNum 3 := rfl
  show (normalizeState (putNext _ current)).cooldownWeeks = 3
  simp only [normalizeState, hcd, toNumber]
  norm_num

/-- Witness for C2: the scenario `PUT {cooldownWeeks: 3}` against a
concrete document with a restaurant and an activator. -/
theorem C2_put_field_fallback_witness :
    (putPersisted (.vObj [("cooldownWeeks", .vNum 3)])
        ⟨[⟨"r1", "R1", false, none⟩], 2, some "sess"⟩).restaurants
      = [⟨"r1", "R1", false, none⟩] ∧
    (putPersisted (.vObj [("cooldownWeeks", .vNum 3)])
        ⟨[⟨"r1", "R1", false, none⟩], 2, some "sess"⟩).cooldownWeeks = 3 ∧
    (putPersisted (.vObj [("cooldownWeeks", .vNum 3)])
        ⟨[⟨"r1", "R1", false, none⟩], 2, some "sess"⟩).activatedBy = some "sess" := by
  have h := C2_put_field_fallback (.vObj [("cooldownWeeks", .vNum 3)])
    ⟨[⟨"r1", "R1", false, none⟩], 2, some "sess"⟩ (by norm_num)
  exact ⟨h.2.2.2.1, h.2.2.2.2.1, h.2.2.2.2.2⟩

end LunchStudio
namespace LunchStudio

/-- The cooldown window in milliseconds, written with the explicit week
constant. -/
lemma WEEKS_TO_MS_eq (cw : ℚ) : WEEKS_TO_MS cw = cw * 604800000 := by
  unfold WEEKS_TO_MS
  ring

/-- A non-blacklisted restaurant stamped at epoch `0`. -/
def c1Restaurant : Restaurant := ⟨"a", "A", false, some 0⟩

/-- C1 counterexample: at `now = 0` with a one-week cooldown, a restaurant
stamped at time `0` is eligible in the code (JS treats the stamp `0` as
falsy) even though its stamp is present and does not exceed the window. -/
theorem C1_counterexample :
    (0 : ℚ) < 1 ∧
    c1Restaurant ∈ availableRestaurants [c1Restaurant] (WEEKS_TO_MS 1) 0 ∧
    ¬ (c1Restaurant.lastSelectedDate = none ∨
       ∃ t, c1Restaurant.lastSelectedDate = some t ∧
         (0 : ℚ) - t > 1 * 604800000) := by
  refine ⟨by norm_num, by decide, ?_⟩
  rintro (h | ⟨t, ht, hgt⟩)
  · simp [c1Restaurant] at h
  · simp only [c1Restaurant, Option.some.injEq] at ht
    rw [← ht] at hgt
    norm_num at hgt

/-- C1 amended: the eligible subset contains exactly the restaurants that
are not blacklisted and whose stamp is absent, equal to `0` (a falsy
stamp counts as absent), or strictly older than the cooldown window. -/
theorem C1_amended (restaurants : List Restaurant) (cooldownWeeks now : ℚ)
    (hcw : 0 < cooldownWeeks) (r : Restaurant) :
    r ∈ availableRestaurants restaurants (WEEKS_TO_MS cooldownWeeks) now ↔
      r ∈ restaurants ∧ r.blacklisted = false ∧
        (r.lastSelectedDate = none ∨ r.lastSelectedDate = some 0 ∨
         ∃ t, r.lastSelectedDate = some t ∧ now - t > cooldownWeeks * 604800000) := by
  rw [availableRestaurants, List.mem_filter]
  refine and_congr_right fun _ => ?_
  cases hld : r.lastSelectedDate with
  | none => simp [hld, Bool.not_eq_true']
  | some t => simp [hld, WEEKS_TO_MS_eq, Bool.not_eq_true']

/-- Witness for C1 amended at a concrete list and window. -/
theorem C1_amended_witness :
    (0 : ℚ) < 2 ∧
    (c1Restaurant ∈ availableRestaurants [c1Restaurant] (WEEKS_TO_MS 2) 5 ↔
      c1Restaurant ∈ [c1Restaurant] ∧ c1Restaurant.blacklisted = false ∧
        (c1Restaurant.lastSelectedDate = none ∨ c1Restaurant.lastSelectedDate = some 0 ∨
         ∃ t, c1Restaurant.lastSelectedDate = some t ∧
           (5 : ℚ) - t > 2 * 604800000)) :=
  ⟨by norm_num, C1_amended [c1Restaurant] 2 5 (by norm_num) c1Restaurant⟩

end LunchStudio
namespace LunchStudio

/-- C8: with at least two eligible restaurants and a draw `rand` in
`[0,1)`, a suggestion succeeds: the restaurant at index
`floor(rand * |eligible|)` of the eligible list is picked, only its
`lastSelectedDate` is restamped to `now` (ids being pairwise distinct),
every other restaurant is unchanged, and the cooldown and activator are
unchanged. -/
theorem C8_successful_pick (st : ServerState) (now rand : ℚ)
    (hr0 : 0 ≤ rand) (hr1 : rand < 1)
    (hlen : 2 ≤ (availableRestaurants st.restaurants (WEEKS_TO_MS st.cooldownWeeks) now).length)
    (hnodup : (st.restaurants.map Restaurant.id).Nodup)
    (chosen : Restaurant)
    (hch : (availableRestaurants st.restaurants (WEEKS_TO_MS st.cooldownWeeks) now)[
      (Int.floor (rand *
        ((availableRestaurants st.restaurants (WEEKS_TO_MS st.cooldownWeeks) now).length : ℚ))).toNat]?
      = some chosen) :
    handleGetSuggestion true st now rand =
      (.picked chosen.name,
       { st with restaurants := st.restaurants.map fun r =>
           if r = chosen then { r with lastSelectedDate := some now } else r }) := by
  have hi0 : (0 : ℤ) ≤ Int.floor (rand *
      ((availableRestaurants st.restaurants (WEEKS_TO_MS st.cooldownWeeks) now).length : ℚ)) :=
    Int.floor_nonneg.mpr (mul_nonneg hr0 (by positivity))
  have hmem : chosen ∈ availableRestaurants st.restaurants (WEEKS_TO_MS st.cooldownWeeks) now := by
    obtain ⟨hlt, heq⟩ := List.getElem?_eq_some_iff.mp hch
    exact heq ▸ List.getElem_mem hlt
  have hmem2 : chosen ∈ st.restaurants :=
    (List.mem_filter.mp hmem).1
  have hfun : ∀ r ∈ st.restaurants,
      (if r.id = chosen.id then { r with lastSelectedDate := some now } else r) =
      (if r = chosen then { r with lastSelectedDate := some now } else r) := by
    intro r hr
    by_cases h : r = chosen
    · subst h
      simp
    · have hid : ¬ r.id = chosen.id := fun hid =>
        h (List.inj_on_of_nodup_map hnodup hr hmem2 hid)
      simp [h, hid]
  have hmap : (st.restaurants.map fun r =>
      if r.id = chosen.id then { r with lastSelectedDate := some now } else r) =
      (st.restaurants.map fun r =>
        if r = chosen then { r with lastSelectedDate := some now } else r) :=
    List.map_congr_left hfun
  simp only [handleGetSuggestion, Bool.not_true, Bool.false_eq_true, if_false]
  rw [if_neg (Nat.not_lt.mpr hlen), if_pos hi0, hch]
  show (SuggestOutcome.picked chosen.name,
    { st with restaurants := st.restaurants.map fun r : Restaurant =>
        if r.id = chosen.id then { r with lastSelectedDate := some now } else r }) = _
  rw [hmap]

/-- The concrete document used by the C8 witness. -/
def c8State : ServerState :=
  ⟨[⟨"a", "A", false, none⟩, ⟨"b", "B", false, none⟩], 2, none⟩

/-- Witness for C8: two eligible restaurants, draw `1/2`, index `1` is
picked and restamped. -/
theorem C8_successful_pick_witness :
    handleGetSuggestion true c8State 100 (1/2) =
      (.picked "B",
       ⟨[⟨"a", "A", false, none⟩, ⟨"b", "B", false, some 100⟩], 2, none⟩) := by
  have havail : availableRestaurants c8State.restaurants (WEEKS_TO_MS c8State.cooldownWeeks) 100
      = [⟨"a", "A", false, none⟩, ⟨"b", "B", false, none⟩] := by decide
  have hidx : (Int.floor ((1/2 : ℚ) *
      ((availableRestaurants c8State.restaurants (WEEKS_TO_MS c8State.cooldownWeeks) 100).length : ℚ))).toNat
      = 1 := by
    rw [havail]
    norm_num
  have hch : (availableRestaurants c8State.restaurants (WEEKS_TO_MS c8State.cooldownWeeks) 100)[
      (Int.floor ((1/2 : ℚ) *
        ((availableRestaurants c8State.restaurants (WEEKS_TO_MS c8State.cooldownWeeks) 100).length : ℚ))).toNat]?
      = some ⟨"b", "B", false, none⟩ := by
    rw [hidx, havail]
    rfl
  have hlen : 2 ≤ (availableRestaurants c8State.restaurants (WEEKS_TO_MS c8State.cooldownWeeks) 100).length := by
    rw [havail]
    norm_num
  have h := C8_successful_pick c8State 100 (1/2)
    (by norm_num) (by norm_num) hlen (by decide) ⟨"b", "B", false, none⟩ hch
  rw [h]
  rfl

end LunchStudio
